import Mathlib

/-!
Shallow embedding of `src/src/main.cpp` (Test-Stand-Firmware), the bench
test-rig sequencer: a global state machine driven by a polled `loop` tick
and an interrupt-attached arm handler `InterruptTestStartCommand`.

Modelling conventions (each noted again at the definition it concerns):
* Machine integers are `Nat` with explicit mod-2^64 arithmetic where the C++
  code subtracts unsigned timestamps (`millis() - CountdownActivatedTime` is
  computed in `uint64_t`).
* The float second-counters `Countdown` and `TestDuration` are kept in whole
  milliseconds (`CountdownMs`, `TestDurationMs`); the source compares
  `float(ms)/1000.f < 30`, which for the relevant ranges is exactly
  `ms < 30000`.
* Sensor acquisition (`analogRead`/thermistor curve, HX711 load cell) is
  external hardware; a tick takes the calibrated readings as inputs, which
  is what `ReadThermistor` / `LoadCell.getData()` return.
* File, relay-pin, LED and display side effects are recorded in the state:
  `logLines` is the sequence of lines printed to the open `File32`
  (`File.printf` on a file that is not open writes nothing), `relayPinWrites`
  is the history of `digitalWrite(GPIO_RELAY_TOGGLE, _)` levels (newest
  first), `relayCalls` the history of `ToggleRelay` arguments (newest first),
  `displayFrames` the chronological list of rendered display frames.
* The SD-card filename probing of `CreateLogFile` (random names, existence
  loop) is modelled separately (`CreateLogFileLoop` below); inside the arm
  handler its outcome is abstracted to the boolean success of `File.open`.
-/

namespace TestStandFirmware

/-- Configured countdown length in seconds (`TEST_COUNTDOWN_SECONDS`, main.cpp line 23). -/
def TEST_COUNTDOWN_SECONDS : Nat := 30

/-- Configured test duration in seconds (`TEST_DURATION_SECONDS`, main.cpp line 24). -/
def TEST_DURATION_SECONDS : Nat := 15

/-- Operation states, mirroring `enum E_OPERATION_STATE` (main.cpp lines 31-38).
`ERROR` is the spec's `Fault`, `READY_FOR_COUNTDOWN` the spec's `Armed`. -/
inductive EOperationState : Type where
  | STARTUP
  | ERROR
  | READY_FOR_COUNTDOWN
  | COUNTDOWN
  | TEST_ACTIVE
  | POST_TEST
deriving DecidableEq

/-- State display names, mirroring `S_OPERATION_STATE` (main.cpp lines 41-48). -/
def S_OPERATION_STATE : EOperationState → String
  | .STARTUP => "STARTUP"
  | .ERROR => "ERROR"
  | .READY_FOR_COUNTDOWN => "READY_FOR_COUNTDOWN"
  | .COUNTDOWN => "COUNTDOWN"
  | .TEST_ACTIVE => "TEST_ACTIVE"
  | .POST_TEST => "POST_TEST"

/-- Digital pin levels written by `digitalWrite`. -/
inductive PinLevel : Type where
  | LOW
  | HIGH
deriving DecidableEq

/-- One line printed to the log file: either the telemetry header written by
`CreateTelemetryString` (main.cpp lines 173-179) or one data record written by
`LogTestData` (main.cpp lines 271-285), kept structurally; `entryLine` below
gives the exact text handed to `File.printf`. -/
inductive LogEntry : Type where
  | header
  | record (timeSec : Nat) (force temp1 temp2 : Int)
deriving DecidableEq

/-- Whether a log entry is the header line. -/
def isHeader : LogEntry → Bool
  | .header => true
  | .record _ _ _ _ => false

/-- Number of header lines in a log. -/
def headerCount (l : List LogEntry) : Nat := (l.filter isHeader).length

/-- The text of a log entry as printed by `File.printf`: the header string of
main.cpp line 176, or the comma-separated record of main.cpp lines 273-281.
The numeric formatting of Arduino `String(float)` is abstracted to `toString`
of the embedded values. -/
def entryLine : LogEntry → String
  | .header => "Time (s), Force (N), Temperature #1 (*C), Temperature #2 (*C)\n"
  | .record t f a b =>
      toString t ++ ", " ++ toString f ++ ", " ++ toString a ++ ", " ++ toString b ++ "\n"

/-- One rendered display page, the data drawn by `DisplayRenderData`
(main.cpp lines 190-220): state name, error log, the three sensor readings,
and the big countdown number `int(TEST_COUNTDOWN_SECONDS - Countdown)`. -/
structure DisplayFrame : Type where
  stateStr : String
  errorStr : String
  force : Int
  temp1 : Int
  temp2 : Int
  countdownNum : Int
deriving DecidableEq

/-- External inputs consumed by one pass of `loop`'s gated body: the `millis()`
value and the sensor readings SensorPort would deliver on this tick.
`lcUpdate` is the result of `LoadCell.update()` (main.cpp line 328): the load
cell value is stored only when it reports new data. -/
structure TickInput : Type where
  now : Nat
  therm1 : Int
  therm2 : Int
  lcUpdate : Bool
  lcData : Int
deriving DecidableEq

/-- The program's global mutable state (main.cpp lines 39, 82-105), plus the
recorded side-effect histories described in the file header. -/
structure FirmwareState : Type where
  OPERATION_STATE : EOperationState
  CountdownActivatedTime : Nat
  TestActivatedTime : Nat
  CountdownMs : Nat
  TestDurationMs : Nat
  ThermistorData1 : Int
  ThermistorData2 : Int
  LoadCellForceData : Int
  ErrorLog : String
  ledTestActive : Bool
  relayCalls : List Bool
  relayPinWrites : List PinLevel
  logOpened : Bool
  logOpenCount : Nat
  logLines : List LogEntry
  displayFrames : List DisplayFrame
deriving DecidableEq

/-- Unsigned 64-bit subtraction `a - b` as C++ computes it for
`millis() - CountdownActivatedTime` (the `uint64_t` globals promote the
subtraction to 64 bits): the result is `a - b` modulo `2 ^ 64`. -/
def sub64 (a b : Nat) : Nat := (a % 2 ^ 64 + (2 ^ 64 - b % 2 ^ 64)) % 2 ^ 64

/-- The number drawn on the display at main.cpp line 217,
`int(TEST_COUNTDOWN_SECONDS - Countdown)` with C++ float-to-int truncation
toward zero; `ms` is the float `Countdown` in milliseconds. -/
def displayedCountdown (ms : Nat) : Int :=
  if ms ≤ TEST_COUNTDOWN_SECONDS * 1000 then
    Int.ofNat ((TEST_COUNTDOWN_SECONDS * 1000 - ms) / 1000)
  else
    -Int.ofNat ((ms - TEST_COUNTDOWN_SECONDS * 1000) / 1000)

/-- Initial values of the globals (main.cpp lines 39, 82-105): zero-initialized
enum (`STARTUP`), `CountdownActivatedTime = TestActivatedTime = 10^10` where
`^` is C++ XOR so the value is `0`, `Countdown = 30 s`, `TestDuration = 15 s`,
zeroed sensor data, empty error log, no side effects performed yet. -/
def initialState : FirmwareState :=
  { OPERATION_STATE := .STARTUP
    CountdownActivatedTime := 0
    TestActivatedTime := 0
    CountdownMs := TEST_COUNTDOWN_SECONDS * 1000
    TestDurationMs := TEST_DURATION_SECONDS * 1000
    ThermistorData1 := 0
    ThermistorData2 := 0
    LoadCellForceData := 0
    ErrorLog := ""
    ledTestActive := false
    relayCalls := []
    relayPinWrites := []
    logOpened := false
    logOpenCount := 0
    logLines := []
    displayFrames := [] }

/-- `ToggleRelay` (main.cpp lines 298-306): `Status == false` drives the relay
pin HIGH, otherwise LOW. Both the argument and the written level are recorded,
newest first. -/
def ToggleRelay (Status : Bool) (s : FirmwareState) : FirmwareState :=
  if Status = false then
    { s with relayCalls := Status :: s.relayCalls
             relayPinWrites := PinLevel.HIGH :: s.relayPinWrites }
  else
    { s with relayCalls := Status :: s.relayCalls
             relayPinWrites := PinLevel.LOW :: s.relayPinWrites }

/-- `File.printf` on the `File32` global: appends the line when the file is
open, writes nothing when it is not. -/
def filePrintf (e : LogEntry) (s : FirmwareState) : FirmwareState :=
  if s.logOpened then { s with logLines := s.logLines ++ [e] } else s

/-- `CreateTelemetryString` (main.cpp lines 173-179): prints the header line to
the file. -/
def CreateTelemetryString (s : FirmwareState) : FirmwareState :=
  filePrintf .header s

/-- `CloseLogFile` (main.cpp lines 227-230): `File.close()`. -/
def CloseLogFile (s : FirmwareState) : FirmwareState :=
  { s with logOpened := false }

/-- Outcome of `CreateLogFile` (main.cpp lines 287-296) as seen by the arm
handler: `openOk` abstracts the boolean returned by `File.open` on the fresh
filename; on success the file is open. The filename-probing loop itself is
modelled by `CreateLogFileLoop` below. -/
def CreateLogFileAbs (openOk : Bool) (s : FirmwareState) : FirmwareState :=
  if openOk then { s with logOpened := true, logOpenCount := s.logOpenCount + 1 }
  else s

/-- `InterruptTestStartCommand` (main.cpp lines 152-171), the handler attached
to the start button interrupt by `InitGPIO`: guarded on
`READY_FOR_COUNTDOWN`; otherwise it lights the test LED, records
`CountdownActivatedTime = millis()`, runs `CreateLogFile` (counting a failure),
prints the header, and moves to `COUNTDOWN`, or to `ERROR` appending
`STARTUP NOT SUCESSFUL | ` when the file could not be created. -/
def InterruptTestStartCommand (now : Nat) (openOk : Bool) (s : FirmwareState) :
    FirmwareState :=
  if s.OPERATION_STATE ≠ .READY_FOR_COUNTDOWN then s
  else
    let s1 := { s with ledTestActive := true, CountdownActivatedTime := now }
    let s2 := CreateTelemetryString (CreateLogFileAbs openOk s1)
    if openOk = false then
      { s2 with OPERATION_STATE := .ERROR
                ErrorLog := s2.ErrorLog ++ "STARTUP NOT SUCESSFUL | " }
    else
      { s2 with OPERATION_STATE := .COUNTDOWN }

/-- `BeginTest` (main.cpp lines 242-248): record `TestActivatedTime`, enter
`TEST_ACTIVE`, engage the relay. -/
def BeginTest (now : Nat) (s : FirmwareState) : FirmwareState :=
  ToggleRelay true
    { s with TestActivatedTime := now, OPERATION_STATE := .TEST_ACTIVE }

/-- `DetectCountdownEnd` (main.cpp lines 232-240): guarded on `COUNTDOWN`;
recompute `Countdown` from `millis()`; once it is no longer below
`TEST_COUNTDOWN_SECONDS`, begin the test. -/
def DetectCountdownEnd (now : Nat) (s : FirmwareState) : FirmwareState :=
  if s.OPERATION_STATE ≠ .COUNTDOWN then s
  else
    let s1 := { s with CountdownMs := sub64 now s.CountdownActivatedTime }
    if s1.CountdownMs < TEST_COUNTDOWN_SECONDS * 1000 then s1
    else BeginTest now s1

/-- `EndTest` (main.cpp lines 263-269): enter `POST_TEST`, LED off, close the
log file, disengage the relay. -/
def EndTest (s : FirmwareState) : FirmwareState :=
  ToggleRelay false
    (CloseLogFile { s with OPERATION_STATE := .POST_TEST, ledTestActive := false })

/-- `DetectTestEnd` (main.cpp lines 250-261): guarded on `TEST_ACTIVE`;
recompute `TestDuration` from `millis()` and mirror it into `Countdown`
(plus 15 s, for display); once it is no longer below `TEST_DURATION_SECONDS`,
end the test. -/
def DetectTestEnd (now : Nat) (s : FirmwareState) : FirmwareState :=
  if s.OPERATION_STATE ≠ .TEST_ACTIVE then s
  else
    let d := sub64 now s.TestActivatedTime
    let s1 := { s with TestDurationMs := d, CountdownMs := d + 15 * 1000 }
    if s1.TestDurationMs < TEST_DURATION_SECONDS * 1000 then s1
    else EndTest s1

/-- `GetThermistorData` (main.cpp lines 308-312): store both thermistor
readings; the readings themselves are tick inputs (external ADC + curve). -/
def GetThermistorData (inp : TickInput) (s : FirmwareState) : FirmwareState :=
  { s with ThermistorData1 := inp.therm1, ThermistorData2 := inp.therm2 }

/-- `GetLoadCellData` (main.cpp lines 326-332): store the force reading only
when `LoadCell.update()` reports new data; the scaling by 1/100000 is folded
into the input reading. -/
def GetLoadCellData (inp : TickInput) (s : FirmwareState) : FirmwareState :=
  if inp.lcUpdate then { s with LoadCellForceData := inp.lcData } else s

/-- `LogTestData` (main.cpp lines 271-285): print one record whose first field
is `millis() / 1000.f` (whole seconds since boot here) followed by the current
force and temperature values. -/
def LogTestData (now : Nat) (s : FirmwareState) : FirmwareState :=
  filePrintf
    (.record (now / 1000) s.LoadCellForceData s.ThermistorData1 s.ThermistorData2) s

/-- The frame `DisplayRenderData` draws from the current globals
(main.cpp lines 190-220). -/
def renderFrame (s : FirmwareState) : DisplayFrame :=
  { stateStr := S_OPERATION_STATE s.OPERATION_STATE
    errorStr := s.ErrorLog
    force := s.LoadCellForceData
    temp1 := s.ThermistorData1
    temp2 := s.ThermistorData2
    countdownNum := displayedCountdown s.CountdownMs }

/-- `DisplayRenderData` (main.cpp lines 190-220): render one frame from the
current state. -/
def DisplayRenderData (s : FirmwareState) : FirmwareState :=
  { s with displayFrames := s.displayFrames ++ [renderFrame s] }

/-- `TestEndCommand` (main.cpp lines 181-188). Dead code: nothing in the
program calls it; included for completeness of the embedding. -/
def TestEndCommand (s : FirmwareState) : FirmwareState :=
  if s.OPERATION_STATE ≠ .TEST_ACTIVE then s
  else CloseLogFile
    { s with OPERATION_STATE := .POST_TEST, ledTestActive := false }

/-- The body of `loop` (main.cpp lines 349-387) once the sample-rate gate
`millis() - MainLoopPrev >= 1000/50` passes — one scheduler tick: render the
display, then per state refresh sensors, log, and run the transition
detectors; `STARTUP` and `ERROR` fall into `default` and do nothing further. -/
def loopTick (inp : TickInput) (s : FirmwareState) : FirmwareState :=
  let s0 := DisplayRenderData s
  match s0.OPERATION_STATE with
  | .READY_FOR_COUNTDOWN => GetLoadCellData inp (GetThermistorData inp s0)
  | .COUNTDOWN =>
      DetectCountdownEnd inp.now
        (LogTestData inp.now (GetLoadCellData inp (GetThermistorData inp s0)))
  | .TEST_ACTIVE =>
      DetectTestEnd inp.now
        (LogTestData inp.now (GetLoadCellData inp (GetThermistorData inp s0)))
  | .POST_TEST => GetLoadCellData inp (GetThermistorData inp s0)
  | _ => s0

/-- `InitRecorder` (main.cpp lines 113-121): when `Sd.begin` fails, enter
`ERROR` appending `SD-CARD NOT FOUND | `. -/
def InitRecorder (sdOk : Bool) (s : FirmwareState) : FirmwareState :=
  if sdOk then s
  else { s with OPERATION_STATE := .ERROR
                ErrorLog := s.ErrorLog ++ "SD-CARD NOT FOUND | " }

/-- `InitLoadCell` (main.cpp lines 123-135): when the tare times out, enter
`ERROR` appending `LOAD CELL TARE UNSUCESSFUL | `. -/
def InitLoadCell (tareOk : Bool) (s : FirmwareState) : FirmwareState :=
  if tareOk then s
  else { s with OPERATION_STATE := .ERROR
                ErrorLog := s.ErrorLog ++ "LOAD CELL TARE UNSUCESSFUL | " }

/-- `setup` (main.cpp lines 334-347): run the initializers (GPIO/display/serial
touch none of the modelled state; `sdOk`/`tareOk` are the external subsystem
outcomes), then promote `STARTUP` to `READY_FOR_COUNTDOWN` when no initializer
flagged an error. -/
def setup (sdOk tareOk : Bool) : FirmwareState :=
  let s := InitLoadCell tareOk (InitRecorder sdOk initialState)
  if s.OPERATION_STATE = .STARTUP then
    { s with OPERATION_STATE := .READY_FOR_COUNTDOWN }
  else s

/-- An externally triggered occurrence the firmware reacts to after setup:
one gated pass of `loop`, or one start-button interrupt. -/
inductive Event : Type where
  | tick (inp : TickInput)
  | arm (now : Nat) (openOk : Bool)
deriving DecidableEq

/-- Apply one event. -/
def stepEvent (s : FirmwareState) : Event → FirmwareState
  | .tick inp => loopTick inp s
  | .arm now openOk => InterruptTestStartCommand now openOk s

/-- Apply a chronological list of events. -/
def run (s : FirmwareState) : List Event → FirmwareState
  | [] => s
  | e :: evs => run (stepEvent s e) evs

/-- The states the program can be in: the pristine global state, any state
`setup` can produce, and anything reachable from those by ticks and arm
interrupts. -/
inductive Reachable : FirmwareState → Prop where
  | boot : Reachable initialState
  | init (sdOk tareOk : Bool) : Reachable (setup sdOk tareOk)
  | next (s : FirmwareState) (e : Event) : Reachable s → Reachable (stepEvent s e)

/-- The relay is engaged in the call-history sense: the most recent
`ToggleRelay` call was `engage` (`ToggleRelay true`). -/
def relayEngaged (s : FirmwareState) : Bool :=
  s.relayCalls.head? == some true

/-- Number of engage calls (`ToggleRelay true`) ever made. -/
def engageCount (s : FirmwareState) : Nat :=
  (s.relayCalls.filter (fun b => b)).length

/-- The relay call history each state is reached with: `BeginTest` is the only
engage, `EndTest` the only disengage. -/
def expectedRelayCalls : EOperationState → List Bool
  | .TEST_ACTIVE => [true]
  | .POST_TEST => [false, true]
  | _ => []

/-- The relay pin write history each state is reached with. -/
def expectedPinWrites : EOperationState → List PinLevel
  | .TEST_ACTIVE => [.LOW]
  | .POST_TEST => [.HIGH, .LOW]
  | _ => []

/-- The inductive invariant of the firmware state machine: relay call and pin
histories are determined by the state, a non-empty error log pins the state to
`ERROR`, and the log file is open with exactly one header exactly between the
arm transition and `EndTest`. -/
def Inv (s : FirmwareState) : Prop :=
  s.relayCalls = expectedRelayCalls s.OPERATION_STATE
  ∧ s.relayPinWrites = expectedPinWrites s.OPERATION_STATE
  ∧ (s.ErrorLog ≠ "" → s.OPERATION_STATE = .ERROR)
  ∧ ((s.OPERATION_STATE = .STARTUP ∨ s.OPERATION_STATE = .READY_FOR_COUNTDOWN
        ∨ s.OPERATION_STATE = .ERROR) →
      s.logOpened = false ∧ s.logOpenCount = 0 ∧ s.logLines = [])
  ∧ ((s.OPERATION_STATE = .COUNTDOWN ∨ s.OPERATION_STATE = .TEST_ACTIVE) →
      s.logOpened = true)
  ∧ ((s.OPERATION_STATE = .COUNTDOWN ∨ s.OPERATION_STATE = .TEST_ACTIVE
        ∨ s.OPERATION_STATE = .POST_TEST) →
      s.logOpenCount = 1 ∧ s.logLines.head? = some .header ∧ headerCount s.logLines = 1)
  ∧ (s.OPERATION_STATE = .POST_TEST → s.logOpened = false)

lemma head?_append_left {α : Type} {l : List α} {a : α}
    (h : l.head? = some a) (l2 : List α) : (l ++ l2).head? = some a := by
  cases l <;> simp_all

lemma headerCount_append_record (l : List LogEntry) (t : Nat) (f a b : Int) :
    headerCount (l ++ [.record t f a b]) = headerCount l := by
  simp [headerCount, List.filter_append, isHeader]

/-- One event preserves the invariant. -/
lemma inv_step (s : FirmwareState) (e : Event) (h : Inv s) : Inv (stepEvent s e) := by
  obtain ⟨h1, h2, h3, h4, h5, h6, h7⟩ := h
  cases e with
  | arm now openOk =>
    by_cases hs : s.OPERATION_STATE = .READY_FOR_COUNTDOWN
    · have hlog := h4 (Or.inr (Or.inl hs))
      have herr : s.ErrorLog = "" := by
        by_contra hne
        rw [h3 hne] at hs
        exact absurd hs (by decide)
      rw [hs] at h1 h2
      simp only [expectedRelayCalls, expectedPinWrites] at h1 h2
      cases openOk with
      | false =>
        simp only [stepEvent, InterruptTestStartCommand, hs, CreateTelemetryString,
          CreateLogFileAbs, filePrintf, hlog.1]
        simp only [Inv, Inv, expectedRelayCalls, expectedPinWrites]
        refine ⟨by simp [h1], by simp [h2], by simp, by simp [hlog.1, hlog.2.1, hlog.2.2],
          by simp, by simp, by simp⟩
      | true =>
        simp only [stepEvent, InterruptTestStartCommand, hs, CreateTelemetryString,
          CreateLogFileAbs, filePrintf]
        simp only [Inv, expectedRelayCalls, expectedPinWrites]
        refine ⟨by simp [h1], by simp [h2], by simp [herr], by simp, by simp,
          ?_, by simp⟩
        simp [hlog.2.1, hlog.2.2, headerCount, isHeader]
    · simp only [stepEvent, InterruptTestStartCommand, hs]
      simp only [if_pos (by simpa using hs)]
      exact ⟨h1, h2, h3, h4, h5, h6, h7⟩
  | tick inp =>
    cases hs : s.OPERATION_STATE with
    | STARTUP =>
      simp only [stepEvent, loopTick, DisplayRenderData, hs]
      exact ⟨by simpa [hs] using h1, by simpa [hs] using h2, by simpa [hs] using h3,
        by simpa [hs] using h4, by simp [hs], by simp [hs], by simp [hs]⟩
    | ERROR =>
      simp only [stepEvent, loopTick, DisplayRenderData, hs]
      exact ⟨by simpa [hs] using h1, by simpa [hs] using h2, by simp [hs],
        by simpa [hs] using h4, by simp [hs], by simp [hs], by simp [hs]⟩
    | READY_FOR_COUNTDOWN =>
      simp only [stepEvent, loopTick, DisplayRenderData, hs, GetThermistorData,
        GetLoadCellData]
      split
      · exact ⟨by simpa [hs] using h1, by simpa [hs] using h2, by simpa [hs] using h3,
          by simpa [hs] using h4, by simp [hs], by simp [hs], by simp [hs]⟩
      · exact ⟨by simpa [hs] using h1, by simpa [hs] using h2, by simpa [hs] using h3,
          by simpa [hs] using h4, by simp [hs], by simp [hs], by simp [hs]⟩
    | POST_TEST =>
      simp only [stepEvent, loopTick, DisplayRenderData, hs, GetThermistorData,
        GetLoadCellData]
      split
      · exact ⟨by simpa [hs] using h1, by simpa [hs] using h2, by simpa [hs] using h3,
          by simp [hs], by simp [hs], by simpa [hs] using h6,
          by simpa [hs] using h7⟩
      · exact ⟨by simpa [hs] using h1, by simpa [hs] using h2, by simpa [hs] using h3,
          by simp [hs], by simp [hs], by simpa [hs] using h6,
          by simpa [hs] using h7⟩
    | COUNTDOWN =>
      have hopen : s.logOpened = true := h5 (Or.inl hs)
      obtain ⟨hcnt, hhead, hhc⟩ := h6 (Or.inl hs)
      have herr : s.ErrorLog = "" := by
        by_contra hne
        have hx := h3 hne
        rw [hs] at hx
        exact absurd hx (by decide)
      rw [hs] at h1 h2
      simp only [expectedRelayCalls, expectedPinWrites] at h1 h2
      simp [stepEvent, loopTick, DisplayRenderData, hs, GetThermistorData,
        GetLoadCellData, LogTestData, filePrintf, DetectCountdownEnd, BeginTest,
        ToggleRelay, hopen]
      by_cases hlc : inp.lcUpdate = true <;>
        by_cases hcd :
          sub64 inp.now s.CountdownActivatedTime < TEST_COUNTDOWN_SECONDS * 1000 <;>
        simp [hlc, hcd] <;>
        exact ⟨by simp [h1, expectedRelayCalls], by simp [h2, expectedPinWrites],
          by simp [herr], by simp, by simp [hopen],
          fun _ => ⟨by simp [hcnt], by simp [head?_append_left hhead],
            by simp [headerCount_append_record, hhc]⟩,
          by simp⟩
    | TEST_ACTIVE =>
      have hopen : s.logOpened = true := h5 (Or.inr hs)
      obtain ⟨hcnt, hhead, hhc⟩ := h6 (Or.inr (Or.inl hs))
      have herr : s.ErrorLog = "" := by
        by_contra hne
        have hx := h3 hne
        rw [hs] at hx
        exact absurd hx (by decide)
      rw [hs] at h1 h2
      simp only [expectedRelayCalls, expectedPinWrites] at h1 h2
      simp [stepEvent, loopTick, DisplayRenderData, hs, GetThermistorData,
        GetLoadCellData, LogTestData, filePrintf, DetectTestEnd, EndTest,
        CloseLogFile, ToggleRelay, hopen]
      by_cases hlc : inp.lcUpdate = true <;>
        by_cases htd :
          sub64 inp.now s.TestActivatedTime < TEST_DURATION_SECONDS * 1000 <;>
        simp [hlc, htd, h1] <;>
        exact ⟨by simp [h1, expectedRelayCalls], by simp [h2, expectedPinWrites],
          by simp [herr], by simp, by simp [hopen],
          fun _ => ⟨by simp [hcnt], by simp [head?_append_left hhead],
            by simp [headerCount_append_record, hhc]⟩,
          by simp⟩

/-- Every reachable state satisfies the invariant. -/
lemma reachable_inv (s : FirmwareState) (h : Reachable s) : Inv s := by
  induction h with
  | boot =>
    unfold Inv
    decide
  | init sdOk tareOk =>
    cases sdOk <;> cases tareOk <;> (unfold Inv; decide)
  | next s e _ ih => exact inv_step s e ih

/-- The candidate filename built from one `random(100)` draw:
`Motor Test Data #<n>.csv` (main.cpp lines 289 and 292). -/
def candidateFileName (n : Nat) : String :=
  "Motor Test Data #" ++ toString n ++ ".csv"

/-- The filename-probing loop of `CreateLogFile` (main.cpp lines 287-296), with
its external collaborators as parameters: `sdExists` is `Sd.exists`, `rand i`
the `i`-th value the `random(100)` generator produces (reduced mod 100 to the
`[0,100)` range `random(100)` guarantees), `idx` the number of draws already
consumed and `fuel` a bound on iterations; `none` means the `while` loop has
not finished within `fuel` draws. A `some` result is the fresh name handed to
`File.open`. -/
def CreateLogFileLoop (sdExists : String → Bool) (rand : Nat → Nat) :
    Nat → Nat → Option String
  | _, 0 => none
  | idx, fuel + 1 =>
    let filename := candidateFileName (rand idx % 100)
    if sdExists filename then CreateLogFileLoop sdExists rand (idx + 1) fuel
    else some filename

/-- The probing loop of `CreateLogFile` terminates: some number of draws
suffices for it to return. -/
def CreateLogFileTerminates (sdExists : String → Bool) (rand : Nat → Nat) : Prop :=
  ∃ fuel, (CreateLogFileLoop sdExists rand 0 fuel).isSome

lemma createLogFileLoop_some (sdExists : String → Bool) (rand : Nat → Nat) :
    ∀ (fuel idx : Nat) (name : String),
      CreateLogFileLoop sdExists rand idx fuel = some name →
      sdExists name = false ∧ ∃ k, k < 100 ∧ name = candidateFileName k := by
  intro fuel
  induction fuel with
  | zero => intro idx name h; simp [CreateLogFileLoop] at h
  | succ fuel ih =>
    intro idx name h
    rw [CreateLogFileLoop] at h
    by_cases hex : sdExists (candidateFileName (rand idx % 100)) = true
    · rw [if_pos (by simpa using hex)] at h
      exact ih (idx + 1) name h
    · rw [if_neg (by simpa using hex)] at h
      obtain rfl : candidateFileName (rand idx % 100) = name := by
        simpa using h
      exact ⟨by simpa using hex, rand idx % 100, Nat.mod_lt _ (by decide), rfl⟩

lemma createLogFileLoop_none_of_all_exist (sdExists : String → Bool)
    (rand : Nat → Nat) (hall : ∀ k, k < 100 → sdExists (candidateFileName k) = true) :
    ∀ (fuel idx : Nat), CreateLogFileLoop sdExists rand idx fuel = none := by
  intro fuel
  induction fuel with
  | zero => intro idx; rfl
  | succ fuel ih =>
    intro idx
    rw [CreateLogFileLoop]
    rw [if_pos (hall _ (Nat.mod_lt _ (by decide)))]
    exact ih (idx + 1)

lemma createLogFileLoop_isSome_of_absent (sdExists : String → Bool)
    (rand : Nat → Nat) :
    ∀ (j idx : Nat), sdExists (candidateFileName (rand (idx + j) % 100)) = false →
      (CreateLogFileLoop sdExists rand idx (j + 1)).isSome := by
  intro j
  induction j with
  | zero =>
    intro idx habs
    rw [Nat.add_zero] at habs
    rw [CreateLogFileLoop]
    rw [if_neg (by simp [habs])]
    rfl
  | succ j ih =>
    intro idx habs
    rw [CreateLogFileLoop]
    by_cases hex : sdExists (candidateFileName (rand idx % 100)) = true
    · rw [if_pos hex]
      exact ih (idx + 1) (by
        have : idx + 1 + j = idx + (j + 1) := by omega
        rw [this]
        exact habs)
    · rw [if_neg hex]
      rfl

lemma createLogFileLoop_absent_of_isSome (sdExists : String → Bool)
    (rand : Nat → Nat) :
    ∀ (fuel idx : Nat), (CreateLogFileLoop sdExists rand idx fuel).isSome →
      ∃ j, sdExists (candidateFileName (rand (idx + j) % 100)) = false := by
  intro fuel
  induction fuel with
  | zero => intro idx h; simp [CreateLogFileLoop] at h
  | succ fuel ih =>
    intro idx h
    rw [CreateLogFileLoop] at h
    by_cases hex : sdExists (candidateFileName (rand idx % 100)) = true
    · rw [if_pos hex] at h
      obtain ⟨j, hj⟩ := ih (idx + 1) h
      exact ⟨j + 1, by
        have : idx + (j + 1) = idx + 1 + j := by omega
        rw [this]
        exact hj⟩
    · exact ⟨0, by simpa using hex⟩

/-- The armed state reached by a clean startup. -/
def armedState : FirmwareState := setup true true

/-- A countdown state: armed, then start button pressed at `millis() = 1000`
with the log file opening successfully. -/
def countdownState : FirmwareState := stepEvent armedState (.arm 1000 true)

/-- An active-test state: the countdown expires on the tick at
`millis() = 31000`. -/
def activeState : FirmwareState :=
  stepEvent countdownState (.tick ⟨31000, 1, 2, true, 3⟩)

/-- A post-test state: the test duration expires on the tick at
`millis() = 46001`. -/
def postState : FirmwareState :=
  stepEvent activeState (.tick ⟨46001, 4, 5, true, 6⟩)

/-- The fault state produced by a failed SD-card check during `setup`. -/
def sdFaultState : FirmwareState := setup false true

lemma armedState_reachable : Reachable armedState := Reachable.init true true

lemma countdownState_reachable : Reachable countdownState :=
  Reachable.next _ _ armedState_reachable

lemma activeState_reachable : Reachable activeState :=
  Reachable.next _ _ countdownState_reachable

lemma postState_reachable : Reachable postState :=
  Reachable.next _ _ activeState_reachable

lemma sdFaultState_reachable : Reachable sdFaultState := Reachable.init false true

/-- C1: in every state reachable by ticks and arm events from startup, the
relay is engaged — `ToggleRelay true` (engage) called more recently than
`ToggleRelay false` (disengage) — only while the operation state is
`TEST_ACTIVE`; in `STARTUP`, `ERROR`, `READY_FOR_COUNTDOWN`, `COUNTDOWN` and
`POST_TEST` it is never engaged. -/
theorem relay_engaged_only_in_test_active (s : FirmwareState) (h : Reachable s)
    (he : relayEngaged s = true) : s.OPERATION_STATE = .TEST_ACTIVE := by
  obtain ⟨h1, -, -, -, -, -, -⟩ := reachable_inv s h
  rw [relayEngaged, h1] at he
  cases hop : s.OPERATION_STATE <;> rw [hop] at he <;>
    simp [expectedRelayCalls] at he ⊢

/-- Witness for C1: the state in which the countdown has just expired is
reachable, has the relay engaged, and is in `TEST_ACTIVE`. -/
theorem relay_engaged_only_in_test_active_witness :
    relayEngaged activeState = true
    ∧ activeState.OPERATION_STATE = .TEST_ACTIVE :=
  ⟨by decide, relay_engaged_only_in_test_active activeState activeState_reachable
      (by decide)⟩

/-- C2 counterexample: the arm-time fault entry (the log file fails to open
while armed) moves `READY_FOR_COUNTDOWN` to `ERROR` without invoking the relay
at all — the relay call history stays empty, so no disengage call is part of
this Fault-entry transition, contradicting the claim that every transition
into Fault invokes disengage. -/
theorem fault_entry_disengages_counterexample :
    (stepEvent armedState (Event.arm 5 false)).OPERATION_STATE = .ERROR
    ∧ armedState.OPERATION_STATE = .READY_FOR_COUNTDOWN
    ∧ (stepEvent armedState (Event.arm 5 false)).relayCalls = armedState.relayCalls
    ∧ (stepEvent armedState (Event.arm 5 false)).relayCalls = [] := by
  decide

/-- C2 amended: no transition into the Fault state invokes the relay at all —
any event whose result is in `ERROR` leaves both the relay call history and the
relay pin write history exactly as they were (in particular no disengage call
is made on Fault entry). -/
theorem fault_entry_no_relay_call (s : FirmwareState) (e : Event)
    (h : (stepEvent s e).OPERATION_STATE = .ERROR) :
    (stepEvent s e).relayCalls = s.relayCalls
    ∧ (stepEvent s e).relayPinWrites = s.relayPinWrites := by
  cases e with
  | arm now openOk =>
    by_cases hs : s.OPERATION_STATE = .READY_FOR_COUNTDOWN
    · cases openOk
      · simp [stepEvent, InterruptTestStartCommand, hs, CreateTelemetryString,
          CreateLogFileAbs, filePrintf]
        split <;> simp
      · simp [stepEvent, InterruptTestStartCommand, hs, CreateTelemetryString,
          CreateLogFileAbs, filePrintf]
    · simp [stepEvent, InterruptTestStartCommand, hs]
  | tick inp =>
    cases hs : s.OPERATION_STATE with
    | STARTUP => simp [stepEvent, loopTick, DisplayRenderData, hs]
    | ERROR => simp [stepEvent, loopTick, DisplayRenderData, hs]
    | READY_FOR_COUNTDOWN =>
      simp [stepEvent, loopTick, DisplayRenderData, hs, GetThermistorData,
        GetLoadCellData]
      split <;> simp
    | POST_TEST =>
      simp [stepEvent, loopTick, DisplayRenderData, hs, GetThermistorData,
        GetLoadCellData]
      split <;> simp
    | COUNTDOWN =>
      exfalso
      revert h
      simp [stepEvent, loopTick, DisplayRenderData, hs, GetThermistorData,
        GetLoadCellData, LogTestData, filePrintf, DetectCountdownEnd, BeginTest,
        ToggleRelay]
      by_cases hlc : inp.lcUpdate = true <;>
        by_cases hcd :
          sub64 inp.now s.CountdownActivatedTime < TEST_COUNTDOWN_SECONDS * 1000 <;>
        simp [hlc, hcd] <;> split <;> simp
    | TEST_ACTIVE =>
      exfalso
      revert h
      simp [stepEvent, loopTick, DisplayRenderData, hs, GetThermistorData,
        GetLoadCellData, LogTestData, filePrintf, DetectTestEnd, EndTest,
        CloseLogFile, ToggleRelay]
      by_cases hlc : inp.lcUpdate = true <;>
        by_cases htd :
          sub64 inp.now s.TestActivatedTime < TEST_DURATION_SECONDS * 1000 <;>
        simp [hlc, htd] <;> split <;> simp

/-- Witness for the amended C2: at the concrete arm-time fault entry the relay
histories are unchanged. -/
theorem fault_entry_no_relay_call_witness :
    (stepEvent armedState (Event.arm 5 false)).relayCalls = armedState.relayCalls
    ∧ (stepEvent armedState (Event.arm 5 false)).relayPinWrites
        = armedState.relayPinWrites :=
  fault_entry_no_relay_call armedState (Event.arm 5 false) (by decide)

/-- C3: the arm event is a complete no-op in every state other than
`READY_FOR_COUNTDOWN` — the whole firmware state is unchanged (so no countdown
timestamp is recorded and no log stream is opened), and any state change the
arm event does cause implies the state was `READY_FOR_COUNTDOWN`. -/
theorem arm_event_noop_outside_armed (s : FirmwareState) (now : Nat)
    (openOk : Bool) :
    (s.OPERATION_STATE ≠ .READY_FOR_COUNTDOWN →
      InterruptTestStartCommand now openOk s = s)
    ∧ (InterruptTestStartCommand now openOk s ≠ s →
      s.OPERATION_STATE = .READY_FOR_COUNTDOWN) := by
  constructor
  · intro hs
    simp [InterruptTestStartCommand, hs]
  · intro hne
    by_contra hs
    exact hne (by simp [InterruptTestStartCommand, hs])

/-- Witness for C3: delivering an arm event in the SD-card fault state changes
nothing. -/
theorem arm_event_noop_outside_armed_witness :
    InterruptTestStartCommand 99 true sdFaultState = sdFaultState :=
  (arm_event_noop_outside_armed sdFaultState 99 true).1 (by decide)

/-- C4 counterexample: the interrupt handler `InterruptTestStartCommand` does
not merely set a pending flag — invoked in the armed state it performs the
state-machine transition to `COUNTDOWN` itself, records the countdown-start
timestamp, opens the log stream and writes the header line, all inside the
interrupt context. -/
theorem handler_sets_only_flag_counterexample :
    armedState.OPERATION_STATE = .READY_FOR_COUNTDOWN
    ∧ (InterruptTestStartCommand 7 true armedState).OPERATION_STATE = .COUNTDOWN
    ∧ (InterruptTestStartCommand 7 true armedState).CountdownActivatedTime = 7
    ∧ (InterruptTestStartCommand 7 true armedState).logOpenCount
        = armedState.logOpenCount + 1
    ∧ (InterruptTestStartCommand 7 true armedState).logLines
        = armedState.logLines ++ [LogEntry.header] := by
  decide

/-- C4 amended: the interrupt handler attached to the physical start control
performs the whole arm transition inline rather than deferring it — outside
`READY_FOR_COUNTDOWN` it changes nothing, and from `READY_FOR_COUNTDOWN` it
lights the test LED, records the countdown-start timestamp, opens the log
stream and writes the header and enters `COUNTDOWN` (or enters `ERROR`
appending a reason when the log file cannot be created); there is no pending
arm flag consumed by the main loop. -/
theorem handler_does_arm_work_inline (s : FirmwareState) (now : Nat)
    (openOk : Bool) (h : Reachable s) :
    (s.OPERATION_STATE ≠ .READY_FOR_COUNTDOWN →
      InterruptTestStartCommand now openOk s = s)
    ∧ (s.OPERATION_STATE = .READY_FOR_COUNTDOWN → openOk = true →
      InterruptTestStartCommand now openOk s =
        { s with OPERATION_STATE := .COUNTDOWN
                 ledTestActive := true
                 CountdownActivatedTime := now
                 logOpened := true
                 logOpenCount := 1
                 logLines := [.header] })
    ∧ (s.OPERATION_STATE = .READY_FOR_COUNTDOWN → openOk = false →
      InterruptTestStartCommand now openOk s =
        { s with OPERATION_STATE := .ERROR
                 ledTestActive := true
                 CountdownActivatedTime := now
                 ErrorLog := s.ErrorLog ++ "STARTUP NOT SUCESSFUL | " }) := by
  obtain ⟨-, -, -, h4, -, -, -⟩ := reachable_inv s h
  refine ⟨fun hs => by simp [InterruptTestStartCommand, hs], ?_, ?_⟩
  · intro hs hok
    obtain ⟨hopen, hcnt, hlines⟩ := h4 (Or.inr (Or.inl hs))
    subst hok
    simp [InterruptTestStartCommand, hs, CreateLogFileAbs, CreateTelemetryString,
      filePrintf, hcnt, hlines]
  · intro hs hok
    obtain ⟨hopen, hcnt, hlines⟩ := h4 (Or.inr (Or.inl hs))
    subst hok
    simp [InterruptTestStartCommand, hs, CreateLogFileAbs, CreateTelemetryString,
      filePrintf, hopen]

/-- Witness for the amended C4: the concrete successful arm transition from the
armed state. -/
theorem handler_does_arm_work_inline_witness :
    InterruptTestStartCommand 7 true armedState =
      { armedState with
          OPERATION_STATE := .COUNTDOWN
          ledTestActive := true
          CountdownActivatedTime := 7
          logOpened := true
          logOpenCount := 1
          logLines := [.header] } :=
  (handler_does_arm_work_inline armedState 7 true armedState_reachable).2.1
    (by decide) rfl

/-- C5 counterexample: a tick in the Fault state does not refresh
`latest_sample` — the sensor readings offered by the tick (5, 6 and force 7)
are discarded and the stored values remain 0, contradicting the claim that
every tick refreshes the sample regardless of state. -/
theorem tick_always_refreshes_sample_counterexample :
    sdFaultState.OPERATION_STATE = .ERROR
    ∧ (stepEvent sdFaultState (Event.tick ⟨100, 5, 6, true, 7⟩)).ThermistorData1 = 0
    ∧ (stepEvent sdFaultState (Event.tick ⟨100, 5, 6, true, 7⟩)).ThermistorData2 = 0
    ∧ (stepEvent sdFaultState (Event.tick ⟨100, 5, 6, true, 7⟩)).LoadCellForceData = 0
    ∧ (5 : Int) ≠ 0 ∧ (6 : Int) ≠ 0 ∧ (7 : Int) ≠ 0 := by
  decide

/-- C5 amended: every tick unconditionally renders one display frame from the
current state and `latest_sample`; the sample itself is refreshed only in
`READY_FOR_COUNTDOWN`, `COUNTDOWN`, `TEST_ACTIVE` and `POST_TEST` (thermistors
always, the force reading when the load cell reports new data), while `STARTUP`
and `ERROR` ticks leave all three readings untouched. -/
theorem tick_display_always_sensors_outside_fault (s : FirmwareState)
    (inp : TickInput) :
    (loopTick inp s).displayFrames = s.displayFrames ++ [renderFrame s]
    ∧ ((s.OPERATION_STATE = .READY_FOR_COUNTDOWN ∨ s.OPERATION_STATE = .COUNTDOWN
          ∨ s.OPERATION_STATE = .TEST_ACTIVE ∨ s.OPERATION_STATE = .POST_TEST) →
        (loopTick inp s).ThermistorData1 = inp.therm1
        ∧ (loopTick inp s).ThermistorData2 = inp.therm2
        ∧ (loopTick inp s).LoadCellForceData =
            (if inp.lcUpdate then inp.lcData else s.LoadCellForceData))
    ∧ ((s.OPERATION_STATE = .STARTUP ∨ s.OPERATION_STATE = .ERROR) →
        (loopTick inp s).ThermistorData1 = s.ThermistorData1
        ∧ (loopTick inp s).ThermistorData2 = s.ThermistorData2
        ∧ (loopTick inp s).LoadCellForceData = s.LoadCellForceData) := by
  cases hs : s.OPERATION_STATE with
  | STARTUP => simp [loopTick, DisplayRenderData, hs]
  | ERROR => simp [loopTick, DisplayRenderData, hs]
  | READY_FOR_COUNTDOWN =>
    simp [loopTick, DisplayRenderData, hs, GetThermistorData, GetLoadCellData]
    split <;> simp
  | POST_TEST =>
    simp [loopTick, DisplayRenderData, hs, GetThermistorData, GetLoadCellData]
    split <;> simp
  | COUNTDOWN =>
    simp only [loopTick, DisplayRenderData, hs, GetThermistorData,
      GetLoadCellData, LogTestData, filePrintf, DetectCountdownEnd, BeginTest,
      ToggleRelay]
    by_cases hlc : inp.lcUpdate = true <;>
      by_cases hcd :
        sub64 inp.now s.CountdownActivatedTime < TEST_COUNTDOWN_SECONDS * 1000 <;>
      simp [hlc, hcd] <;> split <;> simp_all
  | TEST_ACTIVE =>
    simp only [loopTick, DisplayRenderData, hs, GetThermistorData,
      GetLoadCellData, LogTestData, filePrintf, DetectTestEnd, EndTest,
      CloseLogFile, ToggleRelay]
    by_cases hlc : inp.lcUpdate = true <;>
      by_cases htd :
        sub64 inp.now s.TestActivatedTime < TEST_DURATION_SECONDS * 1000 <;>
      simp [hlc, htd] <;> split <;> simp_all

/-- Witness for the amended C5: a concrete armed-state tick renders a frame and
refreshes the sample. -/
theorem tick_display_always_sensors_outside_fault_witness :
    (loopTick ⟨50, 1, 2, true, 3⟩ armedState).displayFrames
      = armedState.displayFrames ++ [renderFrame armedState]
    ∧ (loopTick ⟨50, 1, 2, true, 3⟩ armedState).ThermistorData1 = 1 :=
  ⟨(tick_display_always_sensors_outside_fault armedState ⟨50, 1, 2, true, 3⟩).1,
    by
      have h := (tick_display_always_sensors_outside_fault armedState
        ⟨50, 1, 2, true, 3⟩).2.1 (Or.inl (by decide))
      exact h.1⟩

/-- C6: on a tick in `COUNTDOWN`, while the elapsed countdown duration is
below `TEST_COUNTDOWN_SECONDS` the state remains `COUNTDOWN` with the relay
never called; on any tick where the elapsed duration has reached the limit
(`≥`, not `=`) the state moves to `TEST_ACTIVE` and the relay has been engaged
exactly once; moreover in every reachable state the relay has been engaged at
most once in the whole run. -/
theorem countdown_expiry_engages_once :
    (∀ (s : FirmwareState) (inp : TickInput), Reachable s →
      s.OPERATION_STATE = .COUNTDOWN →
      ((sub64 inp.now s.CountdownActivatedTime < TEST_COUNTDOWN_SECONDS * 1000 →
        (loopTick inp s).OPERATION_STATE = .COUNTDOWN
        ∧ (loopTick inp s).relayCalls = [])
      ∧ (TEST_COUNTDOWN_SECONDS * 1000 ≤ sub64 inp.now s.CountdownActivatedTime →
        (loopTick inp s).OPERATION_STATE = .TEST_ACTIVE
        ∧ (loopTick inp s).relayCalls = [true]
        ∧ engageCount (loopTick inp s) = 1)))
    ∧ (∀ s : FirmwareState, Reachable s → engageCount s ≤ 1) := by
  constructor
  · intro s inp h hs
    obtain ⟨h1, -, -, -, h5, -, -⟩ := reachable_inv s h
    have hopen : s.logOpened = true := h5 (Or.inl hs)
    rw [hs] at h1
    simp only [expectedRelayCalls] at h1
    constructor
    · intro hlt
      have hnot : ¬ TEST_COUNTDOWN_SECONDS * 1000 ≤
          sub64 inp.now s.CountdownActivatedTime := by omega
      simp only [loopTick, DisplayRenderData, hs, GetThermistorData,
        GetLoadCellData, LogTestData, filePrintf, DetectCountdownEnd, BeginTest,
        ToggleRelay, hopen]
      by_cases hlc : inp.lcUpdate = true <;> simp [hlc, hlt, h1]
    · intro hge
      have hnot : ¬ sub64 inp.now s.CountdownActivatedTime <
          TEST_COUNTDOWN_SECONDS * 1000 := by omega
      simp only [loopTick, DisplayRenderData, hs, GetThermistorData,
        GetLoadCellData, LogTestData, filePrintf, DetectCountdownEnd, BeginTest,
        ToggleRelay, hopen]
      by_cases hlc : inp.lcUpdate = true <;>
        simp [hlc, hnot, h1, engageCount]
  · intro s h
    have h1 := (reachable_inv s h).1
    rw [engageCount, h1]
    cases hop : s.OPERATION_STATE <;> decide

/-- Witness for C6: the countdown state armed at 1000 ms, ticked at 31000 ms
(elapsed 30000 ms ≥ limit), transitions to `TEST_ACTIVE` with exactly one
engage call. -/
theorem countdown_expiry_engages_once_witness :
    (loopTick ⟨31000, 1, 2, true, 3⟩ countdownState).OPERATION_STATE = .TEST_ACTIVE
    ∧ (loopTick ⟨31000, 1, 2, true, 3⟩ countdownState).relayCalls = [true]
    ∧ engageCount (loopTick ⟨31000, 1, 2, true, 3⟩ countdownState) = 1
    ∧ engageCount countdownState ≤ 1 := by
  have h := countdown_expiry_engages_once
  have h1 := (h.1 countdownState ⟨31000, 1, 2, true, 3⟩ countdownState_reachable
    (by decide)).2 (by decide)
  exact ⟨h1.1, h1.2.1, h1.2.2, h.2 countdownState countdownState_reachable⟩

/-- C7 counterexample: a telemetry record written while in `COUNTDOWN` (armed
at `millis() = 1000`, tick at `millis() = 41000`) has first field 41 — the
whole seconds since boot — while the elapsed seconds of the armed cycle are
40, contradicting the claim that the first field is the elapsed seconds of the
current armed cycle. -/
theorem telemetry_first_field_counterexample :
    countdownState.CountdownActivatedTime = 1000
    ∧ (stepEvent countdownState (Event.tick ⟨41000, 1, 2, true, 3⟩)).logLines
        = countdownState.logLines ++ [LogEntry.record 41 3 1 2]
    ∧ sub64 41000 countdownState.CountdownActivatedTime / 1000 = 40
    ∧ (41 : Nat) ≠ 40 := by
  decide

/-- C7 amended: every telemetry record appended in `COUNTDOWN` or
`TEST_ACTIVE` is a comma-separated line whose first field is the whole seconds
since boot (`millis()/1000`, not the elapsed seconds of the armed cycle),
followed by the force reading and the two temperatures just acquired; the
header line `Time (s), Force (N), Temperature #1 (*C), Temperature #2 (*C)` is
the first line of the stream and occurs exactly once. -/
theorem telemetry_record_and_header :
    (∀ (s : FirmwareState) (inp : TickInput), Reachable s →
      (s.OPERATION_STATE = .COUNTDOWN ∨ s.OPERATION_STATE = .TEST_ACTIVE) →
      (loopTick inp s).logLines = s.logLines ++
        [LogEntry.record (inp.now / 1000)
          (if inp.lcUpdate then inp.lcData else s.LoadCellForceData)
          inp.therm1 inp.therm2])
    ∧ (∀ (t : Nat) (f x y : Int), entryLine (LogEntry.record t f x y) =
        toString t ++ ", " ++ toString f ++ ", " ++ toString x ++ ", "
          ++ toString y ++ "\n")
    ∧ entryLine LogEntry.header =
        "Time (s), Force (N), Temperature #1 (*C), Temperature #2 (*C)\n"
    ∧ (∀ s : FirmwareState, Reachable s → s.logLines ≠ [] →
        s.logLines.head? = some LogEntry.header ∧ headerCount s.logLines = 1) := by
  refine ⟨?_, fun t f x y => rfl, rfl, ?_⟩
  · intro s inp h hmem
    obtain ⟨-, -, -, -, h5, -, -⟩ := reachable_inv s h
    rcases hmem with hs | hs
    · have hopen : s.logOpened = true := h5 (Or.inl hs)
      simp only [loopTick, DisplayRenderData, hs, GetThermistorData,
        GetLoadCellData, LogTestData, filePrintf, DetectCountdownEnd, BeginTest,
        ToggleRelay, hopen]
      by_cases hlc : inp.lcUpdate = true <;>
        by_cases hcd :
          sub64 inp.now s.CountdownActivatedTime < TEST_COUNTDOWN_SECONDS * 1000 <;>
        simp [hlc, hcd]
    · have hopen : s.logOpened = true := h5 (Or.inr hs)
      simp only [loopTick, DisplayRenderData, hs, GetThermistorData,
        GetLoadCellData, LogTestData, filePrintf, DetectTestEnd, EndTest,
        CloseLogFile, ToggleRelay, hopen]
      by_cases hlc : inp.lcUpdate = true <;>
        by_cases htd :
          sub64 inp.now s.TestActivatedTime < TEST_DURATION_SECONDS * 1000 <;>
        simp [hlc, htd]
  · intro s h hne
    obtain ⟨-, -, -, h4, -, h6, -⟩ := reachable_inv s h
    cases hop : s.OPERATION_STATE with
    | STARTUP => exact absurd (h4 (Or.inl hop)).2.2 hne
    | READY_FOR_COUNTDOWN => exact absurd (h4 (Or.inr (Or.inl hop))).2.2 hne
    | ERROR => exact absurd (h4 (Or.inr (Or.inr hop))).2.2 hne
    | COUNTDOWN => exact ⟨(h6 (Or.inl hop)).2.1, (h6 (Or.inl hop)).2.2⟩
    | TEST_ACTIVE =>
      exact ⟨(h6 (Or.inr (Or.inl hop))).2.1, (h6 (Or.inr (Or.inl hop))).2.2⟩
    | POST_TEST =>
      exact ⟨(h6 (Or.inr (Or.inr hop))).2.1, (h6 (Or.inr (Or.inr hop))).2.2⟩

/-- Witness for the amended C7: the record appended on the countdown tick at
31000 ms carries first field 31 and the fresh readings, and the stream begins
with the header, present exactly once. -/
theorem telemetry_record_and_header_witness :
    (loopTick ⟨31000, 1, 2, true, 3⟩ countdownState).logLines
      = countdownState.logLines ++ [LogEntry.record 31 3 1 2]
    ∧ countdownState.logLines.head? = some LogEntry.header
    ∧ headerCount countdownState.logLines = 1 := by
  have h := telemetry_record_and_header
  refine ⟨?_, ?_, ?_⟩
  · have ha := h.1 countdownState ⟨31000, 1, 2, true, 3⟩ countdownState_reachable
      (Or.inl (by decide))
    simpa using ha
  · exact (h.2.2.2 countdownState countdownState_reachable (by decide)).1
  · exact (h.2.2.2 countdownState countdownState_reachable (by decide)).2

lemma error_preserved_run (evs : List Event) :
    ∀ s : FirmwareState, s.OPERATION_STATE = .ERROR →
      (run s evs).OPERATION_STATE = .ERROR
      ∧ (run s evs).ThermistorData1 = s.ThermistorData1
      ∧ (run s evs).ThermistorData2 = s.ThermistorData2
      ∧ (run s evs).LoadCellForceData = s.LoadCellForceData
      ∧ (run s evs).logLines = s.logLines
      ∧ (run s evs).relayCalls = s.relayCalls := by
  induction evs with
  | nil => exact fun s hs => ⟨hs, rfl, rfl, rfl, rfl, rfl⟩
  | cons e evs ih =>
    intro s hs
    have hstep : stepEvent s e = s ∨ stepEvent s e = DisplayRenderData s := by
      cases e with
      | arm now openOk =>
        left
        simp [stepEvent, InterruptTestStartCommand, hs]
      | tick inp =>
        right
        simp [stepEvent, loopTick, DisplayRenderData, hs]
    rcases hstep with hid | hdr
    · rw [run, hid]
      exact ih s hs
    · rw [run, hdr]
      have hres := ih (DisplayRenderData s) (by simp [DisplayRenderData, hs])
      simpa [DisplayRenderData] using hres

/-- C8: once the error log is non-empty the state is `ERROR` and stays `ERROR`
under every further sequence of ticks and arm events, with no sensor reads, no
log appends and no relay calls — the relay is never engaged for the remainder
of the run (only display rendering continues). -/
theorem fault_pins_state_and_halts_effects (s : FirmwareState)
    (h : Reachable s) (hne : s.ErrorLog ≠ "") :
    s.OPERATION_STATE = .ERROR
    ∧ ∀ evs : List Event,
        (run s evs).OPERATION_STATE = .ERROR
        ∧ (run s evs).ThermistorData1 = s.ThermistorData1
        ∧ (run s evs).ThermistorData2 = s.ThermistorData2
        ∧ (run s evs).LoadCellForceData = s.LoadCellForceData
        ∧ (run s evs).logLines = s.logLines
        ∧ (run s evs).relayCalls = []
        ∧ relayEngaged (run s evs) = false := by
  have hi := reachable_inv s h
  have hop : s.OPERATION_STATE = .ERROR := hi.2.2.1 hne
  have hrc : s.relayCalls = [] := by
    have h1 := hi.1
    rw [hop] at h1
    simpa [expectedRelayCalls] using h1
  refine ⟨hop, fun evs => ?_⟩
  obtain ⟨e1, e2, e3, e4, e5, e6⟩ := error_preserved_run evs s hop
  exact ⟨e1, e2, e3, e4, e5, e6.trans hrc,
    by simp [relayEngaged, e6.trans hrc]⟩

/-- Witness for C8: from the SD-card fault state, an arm event followed by a
tick leaves the state in `ERROR` with no relay engagement. -/
theorem fault_pins_state_and_halts_effects_witness :
    sdFaultState.ErrorLog ≠ ""
    ∧ (run sdFaultState [Event.arm 3 true,
        Event.tick ⟨100, 5, 6, true, 7⟩]).OPERATION_STATE = .ERROR
    ∧ relayEngaged (run sdFaultState [Event.arm 3 true,
        Event.tick ⟨100, 5, 6, true, 7⟩]) = false := by
  have h := fault_pins_state_and_halts_effects sdFaultState sdFaultState_reachable
    (by decide)
  exact ⟨by decide, (h.2 _).1, (h.2 _).2.2.2.2.2.2⟩

/-- C9: relay actuation is active-low — `ToggleRelay true` (engage) writes the
LOW level to the relay pin and `ToggleRelay false` (disengage) writes HIGH —
and in every reachable state that precedes the first `BeginTest` (`STARTUP`,
`ERROR`, `READY_FOR_COUNTDOWN`, `COUNTDOWN`) the relay pin has never been
written at all, so startup and every Fault entry leave it at the reset-default
level, which under this polarity is the engaged one. -/
theorem relay_active_low_unwritten_before_test :
    (∀ s : FirmwareState,
      (ToggleRelay true s).relayPinWrites = PinLevel.LOW :: s.relayPinWrites)
    ∧ (∀ s : FirmwareState,
      (ToggleRelay false s).relayPinWrites = PinLevel.HIGH :: s.relayPinWrites)
    ∧ (∀ s : FirmwareState, Reachable s →
        (s.OPERATION_STATE = .STARTUP ∨ s.OPERATION_STATE = .ERROR
          ∨ s.OPERATION_STATE = .READY_FOR_COUNTDOWN
          ∨ s.OPERATION_STATE = .COUNTDOWN) →
        s.relayPinWrites = []) := by
  refine ⟨fun s => by simp [ToggleRelay], fun s => by simp [ToggleRelay],
    fun s h hmem => ?_⟩
  have h2 := (reachable_inv s h).2.1
  rcases hmem with hop | hop | hop | hop <;> rw [hop] at h2 <;>
    simpa [expectedPinWrites] using h2

/-- Witness for C9: the SD-card fault state has an untouched relay pin, and a
concrete engage call from the pristine state writes LOW. -/
theorem relay_active_low_unwritten_before_test_witness :
    sdFaultState.relayPinWrites = []
    ∧ (ToggleRelay true initialState).relayPinWrites = [PinLevel.LOW] := by
  have h := relay_active_low_unwritten_before_test
  refine ⟨h.2.2 sdFaultState sdFaultState_reachable (Or.inr (Or.inl (by decide))), ?_⟩
  rw [h.1 initialState]
  decide

/-- SD-card contents on which every candidate log name except number 7 already
exists. -/
def allButSeven : String → Bool := fun name => name != candidateFileName 7

/-- SD-card contents on which every candidate log name already exists. -/
def allExist : String → Bool := fun _ => true

/-- A `random(100)` draw stream that always produces 3. -/
def constThree : Nat → Nat := fun _ => 3

/-- A `random(100)` draw stream that always produces 7. -/
def constSeven : Nat → Nat := fun _ => 7

/-- C10 counterexample: with candidate name number 7 absent from the card (so
at least one of the 100 candidate names is absent) but a draw stream that only
ever produces 3, the `CreateLogFile` probing loop never terminates — so the
loop's termination is not equivalent to the mere existence of an absent
candidate name. -/
theorem createlogfile_terminates_iff_counterexample :
    ¬ CreateLogFileTerminates allButSeven constThree
    ∧ allButSeven (candidateFileName 7) = false
    ∧ (7 : Nat) < 100 := by
  refine ⟨?_, by decide, by decide⟩
  rintro ⟨fuel, hfuel⟩
  have hnone : ∀ fl idx : Nat,
      CreateLogFileLoop allButSeven constThree idx fl = none := by
    intro fl
    induction fl with
    | zero => intro idx; rfl
    | succ fl ih =>
      intro idx
      rw [CreateLogFileLoop]
      rw [if_pos (by simp only [constThree]; decide)]
      exact ih (idx + 1)
  rw [hnone fuel 0] at hfuel
  simp at hfuel

/-- C10 amended: whenever the `CreateLogFile` probing loop returns, the name it
opened did not previously exist on the card and is one of the 100 candidates
`Motor Test Data #k.csv` with `k < 100`; if all 100 candidates exist the loop
never terminates; and the loop terminates if and only if the `random(100)`
draw stream eventually produces a draw whose candidate name is absent (not
merely: some candidate name is absent). -/
theorem createlogfile_loop_characterization :
    (∀ (sdExists : String → Bool) (rand : Nat → Nat) (idx fuel : Nat)
        (name : String),
      CreateLogFileLoop sdExists rand idx fuel = some name →
      sdExists name = false ∧ ∃ k, k < 100 ∧ name = candidateFileName k)
    ∧ (∀ (sdExists : String → Bool) (rand : Nat → Nat),
      (∀ k, k < 100 → sdExists (candidateFileName k) = true) →
      ∀ idx fuel : Nat, CreateLogFileLoop sdExists rand idx fuel = none)
    ∧ (∀ (sdExists : String → Bool) (rand : Nat → Nat),
      CreateLogFileTerminates sdExists rand ↔
        ∃ j, sdExists (candidateFileName (rand j % 100)) = false) := by
  refine ⟨fun e r idx fuel name h => createLogFileLoop_some e r fuel idx name h,
    fun e r hall idx fuel => createLogFileLoop_none_of_all_exist e r hall fuel idx,
    fun e r => ⟨?_, ?_⟩⟩
  · rintro ⟨fuel, hf⟩
    have := createLogFileLoop_absent_of_isSome e r fuel 0 hf
    simpa using this
  · rintro ⟨j, hj⟩
    exact ⟨j + 1, createLogFileLoop_isSome_of_absent e r j 0 (by simpa using hj)⟩

/-- Witness for the amended C10: a returned name is fresh (stream constantly 7,
name 7 absent), a fully occupied card never lets the loop finish, and the
termination equivalence holds at a concrete absent draw. -/
theorem createlogfile_loop_characterization_witness :
    allButSeven (candidateFileName 7) = false
    ∧ CreateLogFileLoop allExist constThree 0 5 = none
    ∧ CreateLogFileTerminates allButSeven constSeven := by
  have h := createlogfile_loop_characterization
  refine ⟨(h.1 allButSeven constSeven 0 1 (candidateFileName 7) (by decide)).1,
    h.2.1 allExist constThree (fun k hk => rfl) 0 5,
    (h.2.2 allButSeven constSeven).2 ⟨0, by decide⟩⟩

end TestStandFirmware
